import Mathlib

/-
Verification development for the church-management backend.

The group membership, leadership synchronization, cascade deletion and
attendance reporting logic of the backend is shallowly embedded here.
Document ids are modelled as naturals, dates as integers, the document
store as lists of records.  Mongo operations are translated as follows:
  deleteMany  -> List.filter with the negated predicate
  deleteOne   -> List.eraseP (removes the first match)
  updateMany  -> List.map
  findOne / findById -> List.find?
  doc.save()  / findOneAndUpdate -> setFirst (replaces the first match)
-/

namespace Church

/-- Attendance status enum of groupMemberSchema (models/groupMember.js). -/
inductive AttStatus
  | present
  | absent
  | excused
deriving DecidableEq, Repr

/-- One entry of the embedded attendance array of a GroupMember
(models/groupMember.js, field attendance). -/
structure AttendanceEntry where
  date : Int
  status : AttStatus
  notes : String
deriving DecidableEq, Repr

/-- Role enum of groupMemberSchema (models/groupMember.js, field role). -/
inductive MemberRole
  | member
  | leader
  | assistant
  | admin
deriving DecidableEq, Repr

/-- Person document, restricted to the fields the membership and
attendance subsystem reads (models/person.js). -/
structure Person where
  id : Nat
  firstName : String
  lastName : String
deriving DecidableEq, Repr

/-- Group document, restricted to the fields the subsystem reads
(models/group.js). -/
structure Group where
  id : Nat
  name : String
  leaders : List Nat
  isActive : Bool
  church : Nat
deriving DecidableEq, Repr

/-- Subgroup document (models/subgroup.js). -/
structure Subgroup where
  id : Nat
  name : String
  parentGroup : Nat
  leaders : List Nat
  isActive : Bool
  church : Nat
deriving DecidableEq, Repr

/-- GroupMember document (models/groupMember.js). -/
structure GroupMember where
  id : Nat
  person : Nat
  group : Nat
  subgroup : Option Nat
  role : MemberRole
  attendance : List AttendanceEntry
  isActive : Bool
  notes : String
  church : Nat
deriving DecidableEq, Repr

/-- ChurchUser document, restricted to the fields the subsystem reads
(models/churchUser.js). -/
structure ChurchUser where
  id : Nat
  person : Nat
  role : String
  permissions : List String
  groupLeaderships : List Nat
  subgroupLeaderships : List Nat
deriving DecidableEq, Repr

/-- The document store: one list per collection. -/
structure DB where
  persons : List Person
  groups : List Group
  subgroups : List Subgroup
  members : List GroupMember
  users : List ChurchUser
deriving DecidableEq, Repr

/-- The authenticated request actor (req.user as decoded by the auth
middleware in middleware/auth.js). -/
structure Actor where
  role : String
  permissions : List String
  church : Nat
  groupLeaderships : List Nat
  subgroupLeaderships : List Nat
deriving DecidableEq, Repr

/-- Error responses of the route handlers, keyed by HTTP status and the
message the handler sends. -/
inductive ApiError
  | notFound (msg : String)
  | unauthorized (msg : String)
  | badRequest (msg : String)
  | serverError
deriving DecidableEq, Repr

/-- Replace the first element satisfying p by a; models a mongoose
doc.save() after findById / findOne, and findOneAndUpdate. -/
def setFirst {α : Type _} (p : α → Bool) (a : α) : List α → List α
  | [] => []
  | x :: xs => if p x then a :: xs else x :: setFirst p a xs

/-- authorizeGroupAccess of routes/group.js (lines 14-26): admin role or
manage_groups permission, or leadership of the group. -/
def authorizeGroupAccess (u : Actor) (groupId : Nat) : Bool :=
  if u.role == "admin" || u.permissions.contains "manage_groups" then true
  else if u.groupLeaderships.contains groupId then true
  else false

/-- authorizeSubgroupAccess of routes/subgroup.js (lines 12-34): admin or
manage_groups, or subgroup leadership, or leadership of the parent group
(which requires one lookup of the subgroup). -/
def authorizeSubgroupAccess (db : DB) (u : Actor) (subgroupId : Nat) : Bool :=
  if u.role == "admin" || u.permissions.contains "manage_groups" then true
  else if u.subgroupLeaderships.contains subgroupId then true
  else
    match db.subgroups.find? (fun s => s.id == subgroupId) with
    | none => false
    | some s => u.groupLeaderships.contains s.parentGroup

/-- Step 1 of DELETE /api/groups/:id (routes/group.js line 266):
Subgroup.deleteMany with parentGroup = groupId. -/
def deleteGroupSubgroups (db : DB) (groupId : Nat) : DB :=
  { db with subgroups := db.subgroups.filter (fun s => !(s.parentGroup == groupId)) }

/-- Step 2 of DELETE /api/groups/:id (routes/group.js line 269):
GroupMember.deleteMany with group = groupId. -/
def deleteGroupMembers (db : DB) (groupId : Nat) : DB :=
  { db with members := db.members.filter (fun m => !(m.group == groupId)) }

/-- Step 3 of DELETE /api/groups/:id (routes/group.js lines 272-276):
ChurchUser.updateMany pulling groupId from groupLeaderships. -/
def pullGroupLeaderships (db : DB) (groupId : Nat) : DB :=
  { db with users := db.users.map (fun u =>
      { u with groupLeaderships := u.groupLeaderships.filter (fun x => !(x == groupId)) }) }

/-- Step 4 of DELETE /api/groups/:id (routes/group.js line 279):
Group.deleteOne by id. -/
def deleteGroupDoc (db : DB) (groupId : Nat) : DB :=
  { db with groups := db.groups.eraseP (fun g => g.id == groupId) }

/-- DELETE /api/groups/:id (routes/group.js lines 254-289): look up the
group scoped to the actor church, then run the four steps in source
order. -/
def deleteGroup (db : DB) (actor : Actor) (groupId : Nat) : Except ApiError DB :=
  match db.groups.find? (fun g => g.id == groupId && g.church == actor.church) with
  | none => .error (.notFound "Group not found")
  | some _ =>
    .ok (deleteGroupDoc
          (pullGroupLeaderships
            (deleteGroupMembers
              (deleteGroupSubgroups db groupId) groupId) groupId) groupId)

/-- DELETE /api/subgroups/:id (routes/subgroup.js lines 235-276): find the
subgroup, authorize (admin / manage_groups / parent-group leader), unset
the subgroup field on all memberships that reference it, pull it from all
subgroupLeaderships, then delete the subgroup document. -/
def deleteSubgroup (db : DB) (actor : Actor) (subgroupId : Nat) : Except ApiError DB :=
  match db.subgroups.find? (fun s => s.id == subgroupId) with
  | none => .error (.notFound "Subgroup not found")
  | some sg =>
    if !(actor.role == "admin" || actor.permissions.contains "manage_groups")
        && !(actor.groupLeaderships.contains sg.parentGroup) then
      .error (.unauthorized "Not authorized to delete this subgroup")
    else
      .ok { db with
        members := db.members.map (fun m =>
          if m.subgroup == some subgroupId then { m with subgroup := none } else m),
        users := db.users.map (fun u =>
          { u with subgroupLeaderships :=
              u.subgroupLeaderships.filter (fun x => !(x == subgroupId)) }),
        subgroups := db.subgroups.eraseP (fun s => s.id == subgroupId) }

/-- POST /api/groups/:id/members (routes/group.js lines 317-359): access
check, duplicate (person, group) check, then the new GroupMember document
is saved with the schema defaults.  newId stands for the generated
ObjectId.  Note the handler performs no validation of subgroupId. -/
def addMember (db : DB) (actor : Actor) (groupId personId : Nat)
    (subgroupId : Option Nat) (role : MemberRole) (newId : Nat) :
    Except ApiError (DB × GroupMember) :=
  if !(authorizeGroupAccess actor groupId) then
    .error (.unauthorized "Not authorized to add members to this group")
  else if db.members.any (fun m => m.person == personId && m.group == groupId) then
    .error (.badRequest "Person is already a member of this group")
  else
    let nm : GroupMember :=
      { id := newId, person := personId, group := groupId, subgroup := subgroupId,
        role := role, attendance := [], isActive := true, notes := "",
        church := actor.church }
    .ok ({ db with members := db.members ++ [nm] }, nm)

/-- Field updates of PUT /api/groups/members/:memberId (routes/group.js
lines 383-387): subgroupId applied when given (null clears), role when
truthy, isActive and notes when not undefined. -/
structure MemberUpdate where
  subgroupId : Option (Option Nat)
  role : Option MemberRole
  isActive : Option Bool
  notes : Option String
deriving DecidableEq, Repr

/-- Apply a MemberUpdate in the source order of routes/group.js 383-387. -/
def applyMemberUpdate (upd : MemberUpdate) (m : GroupMember) : GroupMember :=
  let m1 := match upd.subgroupId with
    | none => m
    | some s => { m with subgroup := s }
  let m2 := match upd.role with
    | none => m1
    | some r => { m1 with role := r }
  let m3 := match upd.isActive with
    | none => m2
    | some b => { m2 with isActive := b }
  match upd.notes with
  | none => m3
  | some n => { m3 with notes := n }

/-- PUT /api/groups/members/:memberId (routes/group.js lines 366-403):
find the member, resolve its populated group (a missing group makes the
handler throw, surfaced as a 500), access check against the member's
group, apply the updates, save.  No check relates subgroupId to the
member's group. -/
def updateGroupMember (db : DB) (actor : Actor) (memberId : Nat) (upd : MemberUpdate) :
    Except ApiError (DB × GroupMember) :=
  match db.members.find? (fun m => m.id == memberId) with
  | none => .error (.notFound "Group member not found")
  | some m =>
    match db.groups.find? (fun g => g.id == m.group) with
    | none => .error .serverError
    | some _ =>
      if !(authorizeGroupAccess actor m.group) then
        .error (.unauthorized "Not authorized to update this group member")
      else
        let m2 := applyMemberUpdate upd m
        .ok ({ db with members := setFirst (fun x => x.id == memberId) m2 db.members }, m2)

/-- POST /api/subgroups/:id/members/:personId (routes/subgroup.js lines
304-344): access check, subgroup lookup, then the person must already
hold a membership in the subgroup's parent group; that membership record
gets its subgroup field set and is saved. -/
def assignPersonToSubgroup (db : DB) (actor : Actor) (subgroupId personId : Nat) :
    Except ApiError (DB × GroupMember) :=
  if !(authorizeSubgroupAccess db actor subgroupId) then
    .error (.unauthorized "Not authorized to manage this subgroup")
  else
    match db.subgroups.find? (fun s => s.id == subgroupId) with
    | none => .error (.notFound "Subgroup not found")
    | some sg =>
      match db.members.find? (fun m => m.person == personId && m.group == sg.parentGroup) with
      | none =>
        .error (.badRequest "Person must be a member of the parent group before joining a subgroup")
      | some gm =>
        let gm2 := { gm with subgroup := some subgroupId }
        .ok ({ db with members := setFirst (fun x => x.id == gm.id) gm2 db.members }, gm2)

/-- POST /api/church-users/assign-group-leadership (routes/churchUsers.js
lines 93-123): find user and group; push the user's person onto
group.leaders when absent and save; then addGroupLeadership
(models/churchUser.js lines 130-135) pushes the group id onto
groupLeaderships when absent and saves. -/
def assignGroupLeadership (db : DB) (userId groupId : Nat) : Except ApiError DB :=
  match db.users.find? (fun x => x.id == userId) with
  | none => .error (.notFound "User not found")
  | some u =>
    match db.groups.find? (fun g => g.id == groupId) with
    | none => .error (.notFound "Group not found")
    | some g =>
      let g2 := if g.leaders.contains u.person then g
                else { g with leaders := g.leaders ++ [u.person] }
      let u2 := if u.groupLeaderships.contains groupId then u
                else { u with groupLeaderships := u.groupLeaderships ++ [groupId] }
      .ok { db with
        groups := setFirst (fun x => x.id == groupId) g2 db.groups,
        users := setFirst (fun x => x.id == userId) u2 db.users }

/-- POST /api/church-users/remove-group-leadership (routes/churchUsers.js
lines 126-159): find user and group; filter the user's person out of
group.leaders and save; filter the group id out of groupLeaderships and
save. -/
def removeGroupLeadership (db : DB) (userId groupId : Nat) : Except ApiError DB :=
  match db.users.find? (fun x => x.id == userId) with
  | none => .error (.notFound "User not found")
  | some u =>
    match db.groups.find? (fun g => g.id == groupId) with
    | none => .error (.notFound "Group not found")
    | some g =>
      let g2 := { g with leaders := g.leaders.filter (fun p => !(p == u.person)) }
      let u2 := { u with groupLeaderships :=
                    u.groupLeaderships.filter (fun x => !(x == groupId)) }
      .ok { db with
        groups := setFirst (fun x => x.id == groupId) g2 db.groups,
        users := setFirst (fun x => x.id == userId) u2 db.users }

/-- groupMemberSchema.methods.recordAttendance (models/groupMember.js
lines 61-68): push one attendance entry; the attendance route handlers
(routes/group.js 442-498, routes/subgroup.js 385-441) push the same
shape.  There is no dedup of same-date entries. -/
def recordAttendance (m : GroupMember) (date : Int) (status : AttStatus)
    (notes : String) : GroupMember :=
  { m with attendance := m.attendance ++ [{ date := date, status := status, notes := notes }] }

/-- The date-range predicate of both attendance reports: startDate and
endDate are inclusive bounds. -/
def inRange (startDate endDate : Int) (e : AttendanceEntry) : Bool :=
  decide (startDate ≤ e.date) && decide (e.date ≤ endDate)

/-- Filter an attendance array to the inclusive range, preserving
insertion order (the $filter stage of getGroupAttendance and the
Array.filter of the subgroup report). -/
def filterAttendance (startDate endDate : Int) (l : List AttendanceEntry) :
    List AttendanceEntry :=
  l.filter (inRange startDate endDate)

/-- One row of an attendance report: member id, the joined person name
fields, and the filtered attendance entries. -/
structure AttendanceRow where
  memberId : Nat
  firstName : String
  lastName : String
  attendance : List AttendanceEntry
deriving DecidableEq, Repr

/-- Build the report row for one member: look up the person (the $lookup
plus $unwind of getGroupAttendance, or Person.findById in the subgroup
route) and attach the range-filtered attendance. -/
def memberRow (db : DB) (startDate endDate : Int) (m : GroupMember) :
    Option AttendanceRow :=
  (db.persons.find? (fun p => p.id == m.person)).map
    (fun p => { memberId := m.id, firstName := p.firstName, lastName := p.lastName,
                attendance := filterAttendance startDate endDate m.attendance })

/-- Promise.all over per-member row construction (routes/subgroup.js
lines 471-488): any missing person rejects the whole report. -/
def collectRows (f : GroupMember → Option AttendanceRow) :
    List GroupMember → Option (List AttendanceRow)
  | [] => some []
  | m :: ms =>
    match f m, collectRows f ms with
    | some r, some rs => some (r :: rs)
    | _, _ => none

/-- groupMemberSchema.statics.getGroupAttendance (models/groupMember.js
lines 71-114).  The aggregate $match on the embedded array requires some
entry date at least startDate and some (possibly different) entry date at
most endDate; members without such entries produce no row.  $unwind drops
members whose person document is missing.  $project keeps the member id
and filters the attendance array to the inclusive range. -/
def getGroupAttendance (db : DB) (groupId : Nat) (startDate endDate : Int) :
    List AttendanceRow :=
  (db.members.filter (fun m => m.group == groupId
      && m.attendance.any (fun a => decide (startDate ≤ a.date))
      && m.attendance.any (fun a => decide (a.date ≤ endDate)))).filterMap
    (memberRow db startDate endDate)

/-- The GroupMember.find of the subgroup attendance route (routes/
subgroup.js lines 463-466): memberships of the subgroup, church scoped. -/
def subgroupMembers (db : DB) (actor : Actor) (subgroupId : Nat) : List GroupMember :=
  db.members.filter (fun m => m.subgroup == some subgroupId && m.church == actor.church)

/-- GET /api/subgroups/:id/attendance (routes/subgroup.js lines 448-495):
access check, then every membership with this subgroup (church scoped)
yields one row with its range-filtered attendance. -/
def subgroupAttendanceReport (db : DB) (actor : Actor) (subgroupId : Nat)
    (startDate endDate : Int) : Except ApiError (List AttendanceRow) :=
  if !(authorizeSubgroupAccess db actor subgroupId) then
    .error (.unauthorized "Not authorized to view attendance for this subgroup")
  else
    match collectRows (memberRow db startDate endDate)
        (subgroupMembers db actor subgroupId) with
    | none => .error .serverError
    | some rows => .ok rows

/-- Field updates of PUT /api/groups/:id (routes/group.js lines 217-227),
restricted to the embedded fields: name and leaders when truthy, isActive
when not undefined. -/
structure GroupUpdate where
  name : Option String
  leaders : Option (List Nat)
  isActive : Option Bool
deriving DecidableEq, Repr

/-- Apply a GroupUpdate ($set of findOneAndUpdate). -/
def applyGroupUpdate (upd : GroupUpdate) (g : Group) : Group :=
  let g1 := match upd.name with
    | none => g
    | some n => { g with name := n }
  let g2 := match upd.leaders with
    | none => g1
    | some ls => { g1 with leaders := ls }
  match upd.isActive with
  | none => g2
  | some b => { g2 with isActive := b }

/-- PUT /api/groups/:id (routes/group.js lines 196-247): access check,
then findOneAndUpdate scoped to the actor church applies $set.  The
handler never touches ChurchUser.groupLeaderships. -/
def updateGroup (db : DB) (actor : Actor) (groupId : Nat) (upd : GroupUpdate) :
    Except ApiError DB :=
  if !(authorizeGroupAccess actor groupId) then
    .error (.unauthorized "Not authorized to update this group")
  else
    match db.groups.find? (fun g => g.id == groupId && g.church == actor.church) with
    | none => .error (.notFound "Group not found")
    | some g =>
      .ok { db with groups := setFirst (fun x => x.id == groupId && x.church == actor.church)
                      (applyGroupUpdate upd g) db.groups }

/-- The leadership mirror: a group id appears in a user's groupLeaderships
exactly when the user's person appears in that group's leaders array. -/
def mirrorInv (db : DB) : Prop :=
  ∀ u ∈ db.users, ∀ g ∈ db.groups, (g.id ∈ u.groupLeaderships ↔ u.person ∈ g.leaders)

instance (db : DB) : Decidable (mirrorInv db) := by
  unfold mirrorInv
  exact inferInstance

/-! Concrete instances used by the witnesses and counterexamples. -/

/-- An admin actor of church 0 (admin role carries manage_groups,
models/churchUser.js ROLE_PERMISSIONS). -/
def adminActor : Actor :=
  { role := "admin", permissions := ["manage_groups"], church := 0,
    groupLeaderships := [], subgroupLeaderships := [] }

/-- A database with one group (id 1), one subgroup (id 2) of that group,
one membership (id 3) of person 5 in the group and subgroup, and one user
(id 4) leading both. -/
def dbW1 : DB :=
  { persons := [],
    groups := [{ id := 1, name := "G", leaders := [], isActive := true, church := 0 }],
    subgroups := [{ id := 2, name := "S", parentGroup := 1, leaders := [],
                    isActive := true, church := 0 }],
    members := [{ id := 3, person := 5, group := 1, subgroup := some 2,
                  role := .member, attendance := [], isActive := true,
                  notes := "", church := 0 }],
    users := [{ id := 4, person := 6, role := "user", permissions := [],
                groupLeaderships := [1], subgroupLeaderships := [2] }] }

/-- The state deleteGroup produces from dbW1 for group 1. -/
def dbW1out : DB :=
  { persons := [], groups := [], subgroups := [], members := [],
    users := [{ id := 4, person := 6, role := "user", permissions := [],
                groupLeaderships := [], subgroupLeaderships := [2] }] }

/-- The state deleteSubgroup produces from dbW1 for subgroup 2. -/
def dbW2out : DB :=
  { persons := [],
    groups := [{ id := 1, name := "G", leaders := [], isActive := true, church := 0 }],
    subgroups := [],
    members := [{ id := 3, person := 5, group := 1, subgroup := none,
                  role := .member, attendance := [], isActive := true,
                  notes := "", church := 0 }],
    users := [{ id := 4, person := 6, role := "user", permissions := [],
                groupLeaderships := [1], subgroupLeaderships := [] }] }

/-- An empty database. -/
def dbW3 : DB :=
  { persons := [], groups := [], subgroups := [], members := [], users := [] }

/-- A subgroup of group 1. -/
def sgX4 : Subgroup :=
  { id := 3, name := "S", parentGroup := 1, leaders := [], isActive := true, church := 0 }

/-- Two groups, the subgroup of group 1, and no memberships at all. -/
def dbX4 : DB :=
  { persons := [],
    groups := [{ id := 1, name := "G1", leaders := [], isActive := true, church := 0 },
               { id := 2, name := "G2", leaders := [], isActive := true, church := 0 }],
    subgroups := [sgX4], members := [], users := [] }

/-- The membership addMember creates on dbX4 for person 7 in group 2 with
subgroup 3 (a subgroup of a different group, and person 7 holds no
membership anywhere). -/
def nmX4 : GroupMember :=
  { id := 100, person := 7, group := 2, subgroup := some 3, role := .member,
    attendance := [], isActive := true, notes := "", church := 0 }

/-- dbX4 after that addMember call. -/
def dbX4out : DB := { dbX4 with members := [nmX4] }

/-- A membership of person 5 in group 1, with no subgroup. -/
def mX5 : GroupMember :=
  { id := 10, person := 5, group := 1, subgroup := none, role := .member,
    attendance := [], isActive := true, notes := "", church := 0 }

/-- A subgroup of group 2. -/
def sgX5 : Subgroup :=
  { id := 3, name := "S", parentGroup := 2, leaders := [], isActive := true, church := 0 }

/-- Two groups, a subgroup of group 2, and the membership of person 5 in
group 1. -/
def dbX5 : DB :=
  { persons := [],
    groups := [{ id := 1, name := "G1", leaders := [], isActive := true, church := 0 },
               { id := 2, name := "G2", leaders := [], isActive := true, church := 0 }],
    subgroups := [sgX5], members := [mX5], users := [] }

/-- mX5 with the mismatched subgroup 3 assigned. -/
def mX5out : GroupMember := { mX5 with subgroup := some 3 }

/-- dbX5 after the member update that assigns subgroup 3. -/
def dbX5out : DB := { dbX5 with members := [mX5out] }

/-- A staff account for person 5 with no leaderships yet. -/
def uW6 : ChurchUser :=
  { id := 10, person := 5, role := "user", permissions := [],
    groupLeaderships := [], subgroupLeaderships := [] }

/-- A group with no leaders yet. -/
def gW6 : Group := { id := 1, name := "G", leaders := [], isActive := true, church := 0 }

/-- One group and one staff account, not yet linked. -/
def dbW6 : DB :=
  { persons := [], groups := [gW6], subgroups := [], members := [], users := [uW6] }

/-- dbW6 after assigning group 1 leadership to user 10. -/
def dbW7out : DB :=
  { persons := [],
    groups := [{ id := 1, name := "G", leaders := [5], isActive := true, church := 0 }],
    subgroups := [], members := [],
    users := [{ id := 10, person := 5, role := "user", permissions := [],
                groupLeaderships := [1], subgroupLeaderships := [] }] }

/-- A membership with an empty attendance history. -/
def mW8 : GroupMember :=
  { id := 3, person := 5, group := 1, subgroup := some 2, role := .member,
    attendance := [], isActive := true, notes := "", church := 0 }

/-- A member of group 1 with an empty attendance history. -/
def mX9 : GroupMember :=
  { id := 3, person := 5, group := 1, subgroup := none, role := .member,
    attendance := [], isActive := true, notes := "", church := 0 }

/-- A database where group 1 has exactly one member, whose person record
exists. -/
def dbX9 : DB :=
  { persons := [{ id := 5, firstName := "A", lastName := "B" }],
    groups := [{ id := 1, name := "G", leaders := [], isActive := true, church := 0 }],
    subgroups := [], members := [mX9], users := [] }

/-- Person record for the report witness. -/
def pW9 : Person := { id := 5, firstName := "A", lastName := "B" }

/-- A subgroup member with one attendance entry at date 5. -/
def mW9 : GroupMember :=
  { id := 3, person := 5, group := 1, subgroup := some 2, role := .member,
    attendance := [{ date := 5, status := .present, notes := "" }],
    isActive := true, notes := "", church := 0 }

/-- A database with that subgroup member and its person. -/
def dbW9 : DB :=
  { persons := [pW9], groups := [], subgroups := [], members := [mW9], users := [] }

/-- The rows the subgroup report produces on dbW9 over 0..10. -/
def rowsW9 : List AttendanceRow :=
  [{ memberId := 3, firstName := "A", lastName := "B",
     attendance := [{ date := 5, status := .present, notes := "" }] }]

/-- A consistent state: group 1 has no leaders and user 10 leads nothing,
so the leadership mirror holds. -/
def dbX10 : DB :=
  { persons := [],
    groups := [{ id := 1, name := "G", leaders := [], isActive := true, church := 0 }],
    subgroups := [], members := [],
    users := [{ id := 10, person := 5, role := "user", permissions := [],
                groupLeaderships := [], subgroupLeaderships := [] }] }

/-- dbX10 after the group update that sets leaders to person 5; the user
side of the mirror is untouched. -/
def dbX10out : DB :=
  { persons := [],
    groups := [{ id := 1, name := "G", leaders := [5], isActive := true, church := 0 }],
    subgroups := [], members := [],
    users := [{ id := 10, person := 5, role := "user", permissions := [],
                groupLeaderships := [], subgroupLeaderships := [] }] }

/-- A mirror-consistent state: user 10 leads group 1 and person 5 is the
group leader. -/
def dbW10 : DB :=
  { persons := [],
    groups := [{ id := 1, name := "G", leaders := [5], isActive := true, church := 0 }],
    subgroups := [], members := [],
    users := [{ id := 10, person := 5, role := "user", permissions := [],
                groupLeaderships := [1], subgroupLeaderships := [] }] }

end Church

namespace Church

/-! Helper lemmas about the list combinators that model the store
operations. -/

/-- find? returns the head of the tail after a prefix of failures. -/
theorem find?_append_first {α : Type _} {p : α → Bool} {a : α} (ha : p a = true)
    (l1 l2 : List α) (h1 : ∀ c ∈ l1, p c = false) :
    (l1 ++ a :: l2).find? p = some a := by
  induction l1 with
  | nil => simpa using List.find?_cons_of_pos l2 ha
  | cons c cs ih =>
    rw [List.cons_append, List.find?_cons_of_neg _ (by simp [h1 c (by simp)])]
    exact ih (fun d hd => h1 d (by simp [hd]))

/-- Anatomy of setFirst at a successful find?: the list splits at the
first match and setFirst replaces exactly that element. -/
theorem setFirst_split {α : Type _} (p : α → Bool) (a : α) {l : List α} {b : α}
    (h : l.find? p = some b) :
    ∃ l1 l2, (∀ c ∈ l1, p c = false) ∧ p b = true ∧ l = l1 ++ b :: l2 ∧
      setFirst p a l = l1 ++ a :: l2 := by
  induction l with
  | nil => simp at h
  | cons x xs ih =>
    by_cases hx : p x = true
    · rw [List.find?_cons_of_pos _ hx] at h
      have hxb : x = b := by injection h
      subst hxb
      exact ⟨[], xs, by simp, hx, rfl, by simp [setFirst, hx]⟩
    · have hx2 : p x = false := by simpa using hx
      rw [List.find?_cons_of_neg _ (by simp [hx2])] at h
      obtain ⟨l1, l2, h1, h2, h3, h4⟩ := ih h
      refine ⟨x :: l1, l2, ?_, h2, by simp [h3], by simp [setFirst, hx2, h4]⟩
      intro c hc
      rcases List.mem_cons.mp hc with rfl | hc2
      · exact hx2
      · exact h1 c hc2

/-- After setFirst, find? sees the replacement (when it satisfies p). -/
theorem find?_setFirst {α : Type _} {p : α → Bool} {l : List α} {b : α}
    (h : l.find? p = some b) {a : α} (ha : p a = true) :
    (setFirst p a l).find? p = some a := by
  obtain ⟨l1, l2, h1, _, _, h4⟩ := setFirst_split p a h
  rw [h4]
  exact find?_append_first ha l1 l2 h1

/-- Replacing the first match twice is the same as once. -/
theorem setFirst_idem {α : Type _} (p : α → Bool) (a : α) (ha : p a = true)
    (l : List α) : setFirst p a (setFirst p a l) = setFirst p a l := by
  induction l with
  | nil => rfl
  | cons x xs ih =>
    by_cases hx : p x = true
    · simp [setFirst, hx, ha]
    · have hx2 : p x = false := by simpa using hx
      simp [setFirst, hx2, ih]

/-- On a list whose key projection has no duplicates, eraseP by key
removes every element carrying the key of a present element. -/
theorem eraseP_beq_not_mem {α : Type _} (f : α → Nat) {l : List α} {c : Nat}
    (hnd : (l.map f).Nodup) {a : α} (ha : a ∈ l) (hc : f a = c) :
    ∀ b ∈ l.eraseP (fun x => f x == c), f b ≠ c := by
  have hpa : ((fun x => f x == c) a) = true := by simp [hc]
  obtain ⟨b0, l1, l2, hl1, hb0, heq, herase⟩ :=
    List.exists_of_eraseP (p := fun x => f x == c) ha hpa
  intro b hb hbc
  rw [herase] at hb
  have hfb0 : f b0 = c := by simpa using hb0
  subst heq
  have hnd2 : (f b0 :: (l1.map f ++ l2.map f)).Nodup := by
    have h0 := hnd
    rw [List.map_append, List.map_cons] at h0
    exact List.nodup_middle.mp h0
  have hnotmem : f b0 ∉ l1.map f ++ l2.map f := (List.nodup_cons.mp hnd2).1
  have hmem : f b ∈ l1.map f ++ l2.map f := by
    rcases List.mem_append.mp hb with h1 | h2
    · exact List.mem_append.mpr (Or.inl (List.mem_map_of_mem f h1))
    · exact List.mem_append.mpr (Or.inr (List.mem_map_of_mem f h2))
  rw [hbc, ← hfb0] at hmem
  exact hnotmem hmem

/-- Claim C1: after DeleteGroup(G) completes successfully, no Subgroup has
parentGroup = G.id, no GroupMember has group = G.id, no ChurchUser keeps
G.id in groupLeaderships, and the Group record itself is gone; moreover
the result factors as the group-record deletion applied to an intermediate
state whose dependent records are already gone while the Group record is
still present (dependents deleted before the parent). -/
theorem deleteGroup_cascades (db db2 : DB) (a : Actor) (gid : Nat)
    (hnd : (db.groups.map (fun g => g.id)).Nodup)
    (h : deleteGroup db a gid = .ok db2) :
    (∀ s ∈ db2.subgroups, s.parentGroup ≠ gid) ∧
    (∀ m ∈ db2.members, m.group ≠ gid) ∧
    (∀ u ∈ db2.users, gid ∉ u.groupLeaderships) ∧
    (∀ g ∈ db2.groups, g.id ≠ gid) ∧
    (∃ mid, db2 = deleteGroupDoc mid gid ∧ (∃ g ∈ mid.groups, g.id = gid) ∧
      (∀ s ∈ mid.subgroups, s.parentGroup ≠ gid) ∧
      (∀ m ∈ mid.members, m.group ≠ gid) ∧
      (∀ u ∈ mid.users, gid ∉ u.groupLeaderships)) := by
  unfold deleteGroup at h
  cases hf : db.groups.find? (fun g => g.id == gid && g.church == a.church) with
  | none => rw [hf] at h; exact Except.noConfusion h
  | some g0 =>
    rw [hf] at h
    have hdb2 : db2 = deleteGroupDoc
        (pullGroupLeaderships (deleteGroupMembers (deleteGroupSubgroups db gid) gid) gid)
        gid := by
      have h2 : Except.ok (ε := ApiError) (deleteGroupDoc
          (pullGroupLeaderships (deleteGroupMembers (deleteGroupSubgroups db gid) gid) gid)
          gid) = .ok db2 := h
      injection h2 with h3
      exact h3.symm
    have hg0mem : g0 ∈ db.groups := List.mem_of_find?_eq_some hf
    have hg0 : g0.id = gid ∧ g0.church = a.church := by
      have := List.find?_some hf
      simpa using this
    subst hdb2
    refine ⟨?_, ?_, ?_, ?_, ?_⟩
    · intro s hs
      have hs2 : s ∈ db.subgroups.filter (fun s => !(s.parentGroup == gid)) := by
        simpa [deleteGroupDoc, pullGroupLeaderships, deleteGroupMembers,
          deleteGroupSubgroups] using hs
      have := (List.mem_filter.mp hs2).2
      simpa using this
    · intro m hm
      have hm2 : m ∈ db.members.filter (fun m => !(m.group == gid)) := by
        simpa [deleteGroupDoc, pullGroupLeaderships, deleteGroupMembers,
          deleteGroupSubgroups] using hm
      have := (List.mem_filter.mp hm2).2
      simpa using this
    · intro u hu
      have hu2 : u ∈ (db.users.map (fun u =>
          { u with groupLeaderships := u.groupLeaderships.filter (fun x => !(x == gid)) })) := by
        simpa [deleteGroupDoc, pullGroupLeaderships, deleteGroupMembers,
          deleteGroupSubgroups] using hu
      obtain ⟨u0, _, rfl⟩ := List.mem_map.mp hu2
      intro hmem
      have := (List.mem_filter.mp hmem).2
      simp at this
    · intro g hg
      have hg2 : g ∈ db.groups.eraseP (fun g => g.id == gid) := by
        simpa [deleteGroupDoc, pullGroupLeaderships, deleteGroupMembers,
          deleteGroupSubgroups] using hg
      exact eraseP_beq_not_mem (fun g => g.id) hnd hg0mem hg0.1 g hg2
    · refine ⟨_, rfl, ⟨g0, ?_, hg0.1⟩, ?_, ?_, ?_⟩
      · simpa [pullGroupLeaderships, deleteGroupMembers, deleteGroupSubgroups]
          using hg0mem
      · intro s hs
        have hs2 : s ∈ db.subgroups.filter (fun s => !(s.parentGroup == gid)) := by
          simpa [pullGroupLeaderships, deleteGroupMembers, deleteGroupSubgroups] using hs
        have := (List.mem_filter.mp hs2).2
        simpa using this
      · intro m hm
        have hm2 : m ∈ db.members.filter (fun m => !(m.group == gid)) := by
          simpa [pullGroupLeaderships, deleteGroupMembers, deleteGroupSubgroups] using hm
        have := (List.mem_filter.mp hm2).2
        simpa using this
      · intro u hu
        have hu2 : u ∈ (db.users.map (fun u =>
            { u with groupLeaderships := u.groupLeaderships.filter (fun x => !(x == gid)) })) := by
          simpa [pullGroupLeaderships, deleteGroupMembers, deleteGroupSubgroups] using hu
        obtain ⟨u0, _, rfl⟩ := List.mem_map.mp hu2
        intro hmem
        have := (List.mem_filter.mp hmem).2
        simp at this

/-- Witness for C1 at dbW1: deleting group 1 empties its dependents and
the group list. -/
theorem deleteGroup_cascades_witness :
    (∀ s ∈ dbW1out.subgroups, s.parentGroup ≠ 1) ∧
    (∀ m ∈ dbW1out.members, m.group ≠ 1) ∧
    (∀ u ∈ dbW1out.users, 1 ∉ u.groupLeaderships) ∧
    (∀ g ∈ dbW1out.groups, g.id ≠ 1) ∧
    (∃ mid, dbW1out = deleteGroupDoc mid 1 ∧ (∃ g ∈ mid.groups, g.id = 1) ∧
      (∀ s ∈ mid.subgroups, s.parentGroup ≠ 1) ∧
      (∀ m ∈ mid.members, m.group ≠ 1) ∧
      (∀ u ∈ mid.users, 1 ∉ u.groupLeaderships)) :=
  deleteGroup_cascades dbW1 dbW1out adminActor 1 (by decide) (by rfl)

/-- Claim C2: after DeleteSubgroup(S), every GroupMember that had
subgroup = S.id has only its subgroup field cleared (group, person, role,
attendance and all other fields unchanged), and every other member record
is untouched. -/
theorem deleteSubgroup_clears_membership (db db2 : DB) (a : Actor) (sgid : Nat)
    (h : deleteSubgroup db a sgid = .ok db2) :
    db2.members.length = db.members.length ∧
    ∀ i (h1 : i < db.members.length) (h2 : i < db2.members.length),
      db2.members[i] = (if db.members[i].subgroup = some sgid
        then { db.members[i] with subgroup := none } else db.members[i]) := by
  unfold deleteSubgroup at h
  split at h
  · exact Except.noConfusion h
  · split at h
    · exact Except.noConfusion h
    · rename_i sg hf hacc
      have hdb2 : db2 = { db with
          members := db.members.map (fun m =>
            if m.subgroup == some sgid then { m with subgroup := none } else m),
          users := db.users.map (fun u =>
            { u with subgroupLeaderships :=
                u.subgroupLeaderships.filter (fun x => !(x == sgid)) }),
          subgroups := db.subgroups.eraseP (fun s => s.id == sgid) } := by
        injection h with h3
        exact h3.symm
      subst hdb2
      refine ⟨by simp, ?_⟩
      intro i hi1 hi2
      show (db.members.map (fun m =>
        if m.subgroup == some sgid then { m with subgroup := none } else m))[i] = _
      rw [List.getElem_map]
      by_cases hs : db.members[i].subgroup = some sgid
      · simp [hs]
      · simp [hs]

/-- Witness for C2 at dbW1: deleting subgroup 2 clears the membership's
subgroup field and changes nothing else on it. -/
theorem deleteSubgroup_clears_membership_witness :
    dbW2out.members.length = dbW1.members.length ∧
    ∀ i (h1 : i < dbW1.members.length) (h2 : i < dbW2out.members.length),
      dbW2out.members[i] = (if dbW1.members[i].subgroup = some 2
        then { dbW1.members[i] with subgroup := none } else dbW1.members[i]) :=
  deleteSubgroup_clears_membership dbW1 dbW2out adminActor 2 (by rfl)

/-- Claim C3: AddMember succeeds at most once per (person, group): when no
membership exists the call creates one, and a repeated call against the
resulting state fails with the duplicate-membership error (HTTP 400,
routes/group.js line 334) and returns no new state. -/
theorem addMember_at_most_once (db : DB) (a : Actor) (gid pid : Nat)
    (sg1 sg2 : Option Nat) (r1 r2 : MemberRole) (n1 n2 : Nat)
    (hauth : authorizeGroupAccess a gid = true)
    (hnone : db.members.all (fun m => !(m.person == pid && m.group == gid)) = true) :
    ∃ db2 nm, addMember db a gid pid sg1 r1 n1 = .ok (db2, nm) ∧
      nm.person = pid ∧ nm.group = gid ∧ nm ∈ db2.members ∧
      addMember db2 a gid pid sg2 r2 n2 =
        .error (.badRequest "Person is already a member of this group") := by
  have hany : db.members.any (fun m => m.person == pid && m.group == gid) = false := by
    rw [List.any_eq_false]
    intro m hm
    have h2 := List.all_eq_true.mp hnone m hm
    simp only [Bool.not_eq_true'] at h2
    simp [h2]
  refine ⟨{ db with members := db.members ++
      [{ id := n1, person := pid, group := gid, subgroup := sg1, role := r1,
         attendance := [], isActive := true, notes := "", church := a.church }] },
    { id := n1, person := pid, group := gid, subgroup := sg1, role := r1,
      attendance := [], isActive := true, notes := "", church := a.church },
    ?_, rfl, rfl, ?_, ?_⟩
  · unfold addMember
    rw [hauth, hany]
    rfl
  · simp
  · unfold addMember
    rw [hauth]
    have hany2 : (db.members ++
        [{ id := n1, person := pid, group := gid, subgroup := sg1, role := r1,
           attendance := [], isActive := true, notes := "", church := a.church
           : GroupMember }]).any
        (fun m => m.person == pid && m.group == gid) = true := by
      rw [List.any_eq_true]
      exact ⟨{ id := n1, person := pid, group := gid, subgroup := sg1, role := r1,
               attendance := [], isActive := true, notes := "", church := a.church },
             by simp, by simp⟩
    rw [show ({ db with members := db.members ++
        [{ id := n1, person := pid, group := gid, subgroup := sg1, role := r1,
           attendance := [], isActive := true, notes := "", church := a.church
           : GroupMember }] } : DB).members = db.members ++
        [{ id := n1, person := pid, group := gid, subgroup := sg1, role := r1,
           attendance := [], isActive := true, notes := "", church := a.church
           : GroupMember }] from rfl, hany2]
    rfl

/-- Witness for C3 at the empty database: person 5 joins group 1 once and
the repeat attempt is rejected. -/
theorem addMember_at_most_once_witness :
    ∃ db2 nm, addMember dbW3 adminActor 1 5 none MemberRole.member 42 = .ok (db2, nm) ∧
      nm.person = 5 ∧ nm.group = 1 ∧ nm ∈ db2.members ∧
      addMember db2 adminActor 1 5 none MemberRole.member 43 =
        .error (.badRequest "Person is already a member of this group") :=
  addMember_at_most_once dbW3 adminActor 1 5 none none MemberRole.member MemberRole.member
    42 43 (by rfl) (by rfl)

/-- Counterexample to C4 as stated: subgroup 3 belongs to group 1, person
7 has no membership at all (in particular none in group 1), yet AddMember
with subgroupId = 3 succeeds instead of failing, creating a membership
that even points at a subgroup of a different group. -/
theorem addMember_subgroup_unvalidated_cex :
    dbX4.subgroups.find? (fun s => s.id == 3) = some sgX4 ∧
    sgX4.parentGroup = 1 ∧
    dbX4.members.all (fun m => !(m.person == 7 && m.group == 1)) = true ∧
    addMember dbX4 adminActor 2 7 (some 3) MemberRole.member 100 = .ok (dbX4out, nmX4) ∧
    nmX4.subgroup = some 3 :=
  ⟨rfl, rfl, rfl, rfl, rfl⟩

/-- Claim C4 (amended): AddMember performs no validation of subgroupId at
all — any value is stored as given; the parent-group-membership
requirement is enforced only by the subgroup-route assignment
(POST /api/subgroups/:id/members/:personId), which fails with the
parent-membership error and changes nothing when the person holds no
membership in the subgroup's parent group. -/
theorem addMember_no_subgroup_validation (db : DB) (a : Actor) (gid pid : Nat)
    (r : MemberRole) (nid : Nat)
    (hauth : authorizeGroupAccess a gid = true)
    (hnone : db.members.all (fun m => !(m.person == pid && m.group == gid)) = true) :
    (∀ sgid : Nat, ∃ db2 nm,
        addMember db a gid pid (some sgid) r nid = .ok (db2, nm) ∧
        nm.subgroup = some sgid) ∧
    (∀ sgid pid2 sg, authorizeSubgroupAccess db a sgid = true →
        db.subgroups.find? (fun s => s.id == sgid) = some sg →
        db.members.all (fun m => !(m.person == pid2 && m.group == sg.parentGroup)) = true →
        assignPersonToSubgroup db a sgid pid2 =
          .error (.badRequest
            "Person must be a member of the parent group before joining a subgroup")) := by
  constructor
  · intro sgid
    have hany : db.members.any (fun m => m.person == pid && m.group == gid) = false := by
      rw [List.any_eq_false]
      intro m hm
      have h2 := List.all_eq_true.mp hnone m hm
      simp only [Bool.not_eq_true'] at h2
      simp [h2]
    refine ⟨{ db with members := db.members ++
        [{ id := nid, person := pid, group := gid, subgroup := some sgid, role := r,
           attendance := [], isActive := true, notes := "", church := a.church }] },
      { id := nid, person := pid, group := gid, subgroup := some sgid, role := r,
        attendance := [], isActive := true, notes := "", church := a.church },
      ?_, rfl⟩
    unfold addMember
    rw [hauth, hany]
    rfl
  · intro sgid pid2 sg hacc2 hsg hno
    have hfindnone : db.members.find?
        (fun m => m.person == pid2 && m.group == sg.parentGroup) = none := by
      rw [List.find?_eq_none]
      intro m hm
      have h2 := List.all_eq_true.mp hno m hm
      simp only [Bool.not_eq_true'] at h2
      simp [h2]
    unfold assignPersonToSubgroup
    rw [hacc2]
    simp only [hsg, hfindnone]
    rfl

/-- Witness for amended C4 at the empty database with an admin actor. -/
theorem addMember_no_subgroup_validation_witness :
    (∀ sgid : Nat, ∃ db2 nm,
        addMember dbW3 adminActor 1 5 (some sgid) MemberRole.member 42 = .ok (db2, nm) ∧
        nm.subgroup = some sgid) ∧
    (∀ sgid pid2 sg, authorizeSubgroupAccess dbW3 adminActor sgid = true →
        dbW3.subgroups.find? (fun s => s.id == sgid) = some sg →
        dbW3.members.all (fun m => !(m.person == pid2 && m.group == sg.parentGroup)) = true →
        assignPersonToSubgroup dbW3 adminActor sgid pid2 =
          .error (.badRequest
            "Person must be a member of the parent group before joining a subgroup")) :=
  addMember_no_subgroup_validation dbW3 adminActor 1 5 MemberRole.member 42
    (by rfl) (by rfl)

/-- Counterexample to C5 as stated: member 10 belongs to group 1, subgroup
3 has parentGroup 2, yet the member update succeeds and stores the
mismatched subgroup instead of failing with a mismatch error and leaving
the field unchanged. -/
theorem assignSubgroup_mismatch_cex :
    dbX5.members.find? (fun x => x.id == 10) = some mX5 ∧
    dbX5.subgroups.find? (fun s => s.id == 3) = some sgX5 ∧
    sgX5.parentGroup ≠ mX5.group ∧
    updateGroupMember dbX5 adminActor 10
        { subgroupId := some (some 3), role := none, isActive := none, notes := none } =
      .ok (dbX5out, mX5out) ∧
    mX5out.subgroup = some 3 :=
  ⟨rfl, rfl, by decide, rfl, rfl⟩

/-- Claim C5 (amended): the member-update route applies any provided
subgroupId without comparing the subgroup's parentGroup to the member's
group (no mismatch error exists in the code), and assigning null clears
the subgroup and succeeds for an authorized caller; the subgroup-route
assignment can only ever set a subgroup on a membership whose group is the
subgroup's parent group. -/
theorem assignSubgroup_no_mismatch_check (db : DB) (a : Actor) (mid : Nat)
    (m : GroupMember) (g0 : Group)
    (hm : db.members.find? (fun x => x.id == mid) = some m)
    (hg : db.groups.find? (fun g => g.id == m.group) = some g0)
    (ha : authorizeGroupAccess a m.group = true) :
    (∀ sgv : Option Nat, ∃ db2,
        updateGroupMember db a mid
            { subgroupId := some sgv, role := none, isActive := none, notes := none } =
          .ok (db2, { m with subgroup := sgv })) ∧
    (∀ sgid pid db2 gm sg, assignPersonToSubgroup db a sgid pid = .ok (db2, gm) →
        db.subgroups.find? (fun s => s.id == sgid) = some sg →
        gm.group = sg.parentGroup ∧ gm.subgroup = some sgid) := by
  constructor
  · intro sgv
    refine ⟨{ db with members := setFirst (fun x => x.id == mid) ({ m with subgroup := sgv }) db.members }, ?_⟩
    unfold updateGroupMember
    rw [hm]
    simp only [hg, ha]
    rfl
  · intro sgid pid db2 gm sg h hsg
    unfold assignPersonToSubgroup at h
    split at h
    · exact Except.noConfusion h
    · split at h
      · exact Except.noConfusion h
      · rename_i sg0 hf2
        split at h
        · exact Except.noConfusion h
        · rename_i gm0 hf3
          have hsgeq : sg0 = sg := by
            rw [hf2] at hsg
            injection hsg
          have hgm0 := List.find?_some hf3
          have h5 : gm0.group = sg0.parentGroup := by
            have h6 : gm0.person = pid ∧ gm0.group = sg0.parentGroup := by
              simpa using hgm0
            exact h6.2
          have hgm : gm = { gm0 with subgroup := some sgid } := by
            injection h with h3
            have h4 := congrArg Prod.snd h3
            exact h4.symm
          subst hsgeq
          exact ⟨by rw [hgm]; exact h5, by rw [hgm]⟩

/-- Witness for amended C5 at dbX5: any subgroup value is stored on member
10, and the subgroup-route never mismatches. -/
theorem assignSubgroup_no_mismatch_check_witness :
    (∀ sgv : Option Nat, ∃ db2,
        updateGroupMember dbX5 adminActor 10
            { subgroupId := some sgv, role := none, isActive := none, notes := none } =
          .ok (db2, { mX5 with subgroup := sgv })) ∧
    (∀ sgid pid db2 gm sg, assignPersonToSubgroup dbX5 adminActor sgid pid = .ok (db2, gm) →
        dbX5.subgroups.find? (fun s => s.id == sgid) = some sg →
        gm.group = sg.parentGroup ∧ gm.subgroup = some sgid) :=
  assignSubgroup_no_mismatch_check dbX5 adminActor 10 mX5
    { id := 1, name := "G1", leaders := [], isActive := true, church := 0 }
    (by rfl) (by rfl) (by rfl)

/-- setFirst with the element find? already returns leaves the list
unchanged. -/
theorem setFirst_self {α : Type _} {p : α → Bool} {l : List α} {a : α}
    (h : l.find? p = some a) : setFirst p a l = l := by
  obtain ⟨l1, l2, h1, h2, h3, h4⟩ := setFirst_split p a h
  rw [h4, h3]

/-- Claim C6: when user and group both exist, a successful
AssignGroupLeadership leaves the group id in the user's groupLeaderships
and the user's person in the group's leaders; a successful
RemoveGroupLeadership leaves neither. -/
theorem leadership_mirror_updates (db : DB) (uid gid : Nat) (u : ChurchUser)
    (hu : db.users.find? (fun x => x.id == uid) = some u) :
    (∀ db1, assignGroupLeadership db uid gid = .ok db1 →
      (∃ x, db1.users.find? (fun z => z.id == uid) = some x ∧
        gid ∈ x.groupLeaderships ∧ x.person = u.person) ∧
      (∃ y, db1.groups.find? (fun z => z.id == gid) = some y ∧
        u.person ∈ y.leaders)) ∧
    (∀ db2, removeGroupLeadership db uid gid = .ok db2 →
      (∃ x, db2.users.find? (fun z => z.id == uid) = some x ∧
        gid ∉ x.groupLeaderships ∧ x.person = u.person) ∧
      (∃ y, db2.groups.find? (fun z => z.id == gid) = some y ∧
        u.person ∉ y.leaders)) := by
  have hpu := List.find?_some hu
  constructor
  · intro db1 h
    unfold assignGroupLeadership at h
    rw [hu] at h
    cases hg0 : db.groups.find? (fun g => g.id == gid) with
    | none => rw [hg0] at h; exact Except.noConfusion h
    | some g =>
      rw [hg0] at h
      injection h with h3
      subst h3
      set g2 := if g.leaders.contains u.person then g
                else { g with leaders := g.leaders ++ [u.person] } with hg2def
      set u2 := if u.groupLeaderships.contains gid then u
                else { u with groupLeaderships := u.groupLeaderships ++ [gid] } with hu2def
      have hperson : u2.person = u.person := by
        by_cases hc : u.groupLeaderships.contains gid = true
        · rw [hu2def, if_pos hc]
        · rw [hu2def, if_neg hc]
      have hpu2 : (u2.id == uid) = true := by
        by_cases hc : u.groupLeaderships.contains gid = true
        · rw [hu2def, if_pos hc]; exact hpu
        · rw [hu2def, if_neg hc]; exact hpu
      have hpg := List.find?_some hg0
      have hpg2 : (g2.id == gid) = true := by
        by_cases hc : g.leaders.contains u.person = true
        · rw [hg2def, if_pos hc]; exact hpg
        · rw [hg2def, if_neg hc]; exact hpg
      refine ⟨⟨u2, find?_setFirst hu hpu2, ?_, hperson⟩,
              ⟨g2, find?_setFirst hg0 hpg2, ?_⟩⟩
      · by_cases hc : u.groupLeaderships.contains gid = true
        · rw [hu2def, if_pos hc]
          exact List.elem_iff.mp hc
        · rw [hu2def, if_neg hc]
          simp
      · by_cases hc : g.leaders.contains u.person = true
        · rw [hg2def, if_pos hc]
          exact List.elem_iff.mp hc
        · rw [hg2def, if_neg hc]
          simp
  · intro db2 h2
    unfold removeGroupLeadership at h2
    rw [hu] at h2
    cases hg0 : db.groups.find? (fun g => g.id == gid) with
    | none => rw [hg0] at h2; exact Except.noConfusion h2
    | some g =>
      rw [hg0] at h2
      injection h2 with h3
      subst h3
      have hpg := List.find?_some hg0
      refine ⟨⟨_, find?_setFirst hu hpu, ?_, rfl⟩,
              ⟨_, find?_setFirst hg0 hpg, ?_⟩⟩
      · intro hmem
        have := (List.mem_filter.mp hmem).2
        simp at this
      · intro hmem
        have := (List.mem_filter.mp hmem).2
        simp at this

/-- Witness for C6 at dbW6: assigning and removing group 1 leadership for
user 10 updates both sides of the mirror. -/
theorem leadership_mirror_updates_witness :
    (∀ db1, assignGroupLeadership dbW6 10 1 = .ok db1 →
      (∃ x, db1.users.find? (fun z => z.id == 10) = some x ∧
        1 ∈ x.groupLeaderships ∧ x.person = uW6.person) ∧
      (∃ y, db1.groups.find? (fun z => z.id == 1) = some y ∧
        uW6.person ∈ y.leaders)) ∧
    (∀ db2, removeGroupLeadership dbW6 10 1 = .ok db2 →
      (∃ x, db2.users.find? (fun z => z.id == 10) = some x ∧
        1 ∉ x.groupLeaderships ∧ x.person = uW6.person) ∧
      (∃ y, db2.groups.find? (fun z => z.id == 1) = some y ∧
        uW6.person ∉ y.leaders)) :=
  leadership_mirror_updates dbW6 10 1 uW6 (by rfl)

/-- Claim C7: AssignGroupLeadership is idempotent — after a successful
call, repeating it returns the same state unchanged, and (when the lists
were duplicate-free to begin with) the group id occurs exactly once in
groupLeaderships and the person exactly once in leaders. -/
theorem assignGroupLeadership_idem (db db1 : DB) (uid gid : Nat)
    (u : ChurchUser) (g : Group)
    (hu : db.users.find? (fun x => x.id == uid) = some u)
    (hg : db.groups.find? (fun g => g.id == gid) = some g)
    (hcu : u.groupLeaderships.count gid ≤ 1)
    (hcg : g.leaders.count u.person ≤ 1)
    (h : assignGroupLeadership db uid gid = .ok db1) :
    assignGroupLeadership db1 uid gid = .ok db1 ∧
    (∃ x, db1.users.find? (fun z => z.id == uid) = some x ∧
      x.groupLeaderships.count gid = 1) ∧
    (∃ y, db1.groups.find? (fun z => z.id == gid) = some y ∧
      y.leaders.count u.person = 1) := by
  have hpu := List.find?_some hu
  have hpg := List.find?_some hg
  unfold assignGroupLeadership at h
  rw [hu, hg] at h
  injection h with h3
  subst h3
  set g2 := if g.leaders.contains u.person then g
            else { g with leaders := g.leaders ++ [u.person] } with hg2def
  set u2 := if u.groupLeaderships.contains gid then u
            else { u with groupLeaderships := u.groupLeaderships ++ [gid] } with hu2def
  have hperson : u2.person = u.person := by
    by_cases hc : u.groupLeaderships.contains gid = true
    · rw [hu2def, if_pos hc]
    · rw [hu2def, if_neg hc]
  have hpu2 : (u2.id == uid) = true := by
    by_cases hc : u.groupLeaderships.contains gid = true
    · rw [hu2def, if_pos hc]; exact hpu
    · rw [hu2def, if_neg hc]; exact hpu
  have hpg2 : (g2.id == gid) = true := by
    by_cases hc : g.leaders.contains u.person = true
    · rw [hg2def, if_pos hc]; exact hpg
    · rw [hg2def, if_neg hc]; exact hpg
  have hfu : (setFirst (fun x => x.id == uid) u2 db.users).find?
      (fun x => x.id == uid) = some u2 := find?_setFirst hu hpu2
  have hfg : (setFirst (fun x => x.id == gid) g2 db.groups).find?
      (fun x => x.id == gid) = some g2 := find?_setFirst hg hpg2
  have hmu2 : u2.groupLeaderships.contains gid = true := by
    by_cases hc : u.groupLeaderships.contains gid = true
    · rw [hu2def, if_pos hc]; exact hc
    · rw [hu2def, if_neg hc]
      exact List.elem_eq_true_of_mem (by simp)
  have hmg2 : g2.leaders.contains u2.person = true := by
    rw [hperson]
    by_cases hc : g.leaders.contains u.person = true
    · rw [hg2def, if_pos hc]; exact hc
    · rw [hg2def, if_neg hc]
      exact List.elem_eq_true_of_mem (by simp)
  refine ⟨?_, ⟨u2, hfu, ?_⟩, ⟨g2, hfg, ?_⟩⟩
  · unfold assignGroupLeadership
    simp only [hfu, hfg]
    simp only [hmu2, hmg2, if_true]
    rw [setFirst_idem (fun x => x.id == gid) g2 hpg2,
       setFirst_idem (fun x => x.id == uid) u2 hpu2]
  · by_cases hc : u.groupLeaderships.contains gid = true
    · rw [hu2def, if_pos hc]
      have hmem : gid ∈ u.groupLeaderships := List.elem_iff.mp hc
      have h1 : 0 < u.groupLeaderships.count gid := List.count_pos_iff.mpr hmem
      omega
    · rw [hu2def, if_neg hc]
      have hnot : gid ∉ u.groupLeaderships := by
        intro hmem
        exact hc (List.elem_eq_true_of_mem hmem)
      rw [List.count_append, List.count_eq_zero.mpr hnot]
      simp
  · by_cases hc : g.leaders.contains u.person = true
    · rw [hg2def, if_pos hc]
      have hmem : u.person ∈ g.leaders := List.elem_iff.mp hc
      have h1 : 0 < g.leaders.count u.person := List.count_pos_iff.mpr hmem
      omega
    · rw [hg2def, if_neg hc]
      have hnot : u.person ∉ g.leaders := by
        intro hmem
        exact hc (List.elem_eq_true_of_mem hmem)
      rw [List.count_append, List.count_eq_zero.mpr hnot]
      simp

/-- Witness for C7 at dbW6: the second assignment of group 1 to user 10
returns dbW7out unchanged, with single occurrences on both sides. -/
theorem assignGroupLeadership_idem_witness :
    assignGroupLeadership dbW7out 10 1 = .ok dbW7out ∧
    (∃ x, dbW7out.users.find? (fun z => z.id == 10) = some x ∧
      x.groupLeaderships.count 1 = 1) ∧
    (∃ y, dbW7out.groups.find? (fun z => z.id == 1) = some y ∧
      y.leaders.count uW6.person = 1) :=
  assignGroupLeadership_idem dbW6 dbW7out 10 1 uW6 gW6
    (by rfl) (by rfl) (by decide) (by decide) (by rfl)

/-- Claim C8: RecordAttendance appends exactly one entry per call and
never deduplicates — two calls with the same date leave two entries for
that date, and the subgroup attendance report over a range containing the
date returns both entries for the member. -/
theorem recordAttendance_appends (m : GroupMember) (d s e : Int)
    (st st2 : AttStatus) (n n2 : String)
    (h1 : s ≤ d) (h2 : d ≤ e) :
    (recordAttendance (recordAttendance m d st n) d st2 n2).attendance =
      m.attendance ++ [{ date := d, status := st, notes := n },
                       { date := d, status := st2, notes := n2 }] ∧
    ((recordAttendance (recordAttendance m d st n) d st2 n2).attendance.filter
        (fun x => x.date == d)).length =
      (m.attendance.filter (fun x => x.date == d)).length + 2 ∧
    filterAttendance s e
        (recordAttendance (recordAttendance m d st n) d st2 n2).attendance =
      filterAttendance s e m.attendance ++
        [{ date := d, status := st, notes := n },
         { date := d, status := st2, notes := n2 }] ∧
    (∀ db a sgid p rows,
      subgroupMembers db a sgid = [recordAttendance (recordAttendance m d st n) d st2 n2] →
      db.persons.find? (fun q => q.id == m.person) = some p →
      authorizeSubgroupAccess db a sgid = true →
      subgroupAttendanceReport db a sgid s e = .ok rows →
      rows = [{ memberId := m.id, firstName := p.firstName, lastName := p.lastName,
                attendance := filterAttendance s e m.attendance ++
                  [{ date := d, status := st, notes := n },
                   { date := d, status := st2, notes := n2 }] }]) := by
  have hatt : (recordAttendance (recordAttendance m d st n) d st2 n2).attendance =
      m.attendance ++ [{ date := d, status := st, notes := n },
                       { date := d, status := st2, notes := n2 }] := by
    simp [recordAttendance]
  have hfil0 : filterAttendance s e
      (m.attendance ++ [{ date := d, status := st, notes := n },
                        { date := d, status := st2, notes := n2 }]) =
      filterAttendance s e m.attendance ++
        [{ date := d, status := st, notes := n },
         { date := d, status := st2, notes := n2 }] := by
    unfold filterAttendance
    rw [List.filter_append]
    simp [inRange, h1, h2]
  have hfil : filterAttendance s e
      (recordAttendance (recordAttendance m d st n) d st2 n2).attendance =
      filterAttendance s e m.attendance ++
        [{ date := d, status := st, notes := n },
         { date := d, status := st2, notes := n2 }] := by
    rw [hatt]
    exact hfil0
  refine ⟨hatt, ?_, hfil, ?_⟩
  · rw [hatt, List.filter_append, List.length_append]
    simp
  · intro db a sgid p rows hf hp ha hrep
    have hrow : memberRow db s e
        (recordAttendance (recordAttendance m d st n) d st2 n2) =
        some { memberId := m.id, firstName := p.firstName, lastName := p.lastName,
               attendance := filterAttendance s e m.attendance ++
                 [{ date := d, status := st, notes := n },
                  { date := d, status := st2, notes := n2 }] } := by
      unfold memberRow
      rw [show (recordAttendance (recordAttendance m d st n) d st2 n2).person =
        m.person from rfl]
      rw [hp]
      simp [recordAttendance, hfil0]
    have hcomp : subgroupAttendanceReport db a sgid s e =
        .ok [{ memberId := m.id, firstName := p.firstName, lastName := p.lastName,
               attendance := filterAttendance s e m.attendance ++
                 [{ date := d, status := st, notes := n },
                  { date := d, status := st2, notes := n2 }] }] := by
      unfold subgroupAttendanceReport
      rw [ha, hf]
      have hcoll : collectRows (memberRow db s e)
          [recordAttendance (recordAttendance m d st n) d st2 n2] =
          some [{ memberId := m.id, firstName := p.firstName, lastName := p.lastName,
                  attendance := filterAttendance s e m.attendance ++
                    [{ date := d, status := st, notes := n },
                     { date := d, status := st2, notes := n2 }] }] := by
        unfold collectRows
        rw [hrow]
        rfl
      rw [hcoll]
      rfl
    rw [hcomp] at hrep
    injection hrep with h5
    exact h5.symm

/-- Witness for C8 at mW8: recording date 5 twice yields both entries and
the range 0..10 report shows them. -/
theorem recordAttendance_appends_witness :
    (recordAttendance (recordAttendance mW8 5 .present "") 5 .present "").attendance =
      mW8.attendance ++ [{ date := 5, status := .present, notes := "" },
                         { date := 5, status := .present, notes := "" }] ∧
    ((recordAttendance (recordAttendance mW8 5 .present "") 5 .present "").attendance.filter
        (fun x => x.date == 5)).length =
      (mW8.attendance.filter (fun x => x.date == 5)).length + 2 ∧
    filterAttendance 0 10
        (recordAttendance (recordAttendance mW8 5 .present "") 5 .present "").attendance =
      filterAttendance 0 10 mW8.attendance ++
        [{ date := 5, status := .present, notes := "" },
         { date := 5, status := .present, notes := "" }] ∧
    (∀ db a sgid p rows,
      subgroupMembers db a sgid =
        [recordAttendance (recordAttendance mW8 5 .present "") 5 .present ""] →
      db.persons.find? (fun q => q.id == mW8.person) = some p →
      authorizeSubgroupAccess db a sgid = true →
      subgroupAttendanceReport db a sgid 0 10 = .ok rows →
      rows = [{ memberId := mW8.id, firstName := p.firstName, lastName := p.lastName,
                attendance := filterAttendance 0 10 mW8.attendance ++
                  [{ date := 5, status := .present, notes := "" },
                   { date := 5, status := .present, notes := "" }] }]) :=
  recordAttendance_appends mW8 5 0 10 .present .present "" "" (by decide) (by decide)

/-- A successful Promise.all over per-member rows has one row per member,
built by the row function, in member order. -/
theorem collectRows_spec (f : GroupMember → Option AttendanceRow)
    (l : List GroupMember) (rows : List AttendanceRow)
    (h : collectRows f l = some rows) :
    rows.length = l.length ∧
    ∀ i (h1 : i < l.length) (h2 : i < rows.length), f l[i] = some rows[i] := by
  induction l generalizing rows with
  | nil =>
    have hr : ([] : List AttendanceRow) = rows := by
      unfold collectRows at h
      injection h
    subst hr
    exact ⟨rfl, fun i h1 h2 => absurd h1 (by simp)⟩
  | cons m ms ih =>
    unfold collectRows at h
    cases hf : f m with
    | none => rw [hf] at h; exact Option.noConfusion h
    | some r =>
      rw [hf] at h
      cases hc : collectRows f ms with
      | none => rw [hc] at h; exact Option.noConfusion h
      | some rs =>
        rw [hc] at h
        have hr : r :: rs = rows := by injection h
        subst hr
        obtain ⟨hl, hi⟩ := ih rs hc
        refine ⟨by simp [hl], ?_⟩
        intro i h1 h2
        cases i with
        | zero => simpa using hf
        | succ j =>
          have hj1 : j < ms.length := by simpa using h1
          have hj2 : j < rs.length := by simpa using h2
          simpa using hi j hj1 hj2

/-- Counterexample to C9 as stated: group 1 has a member with a resolvable
person and (vacuously) an empty in-range subsequence, yet the group report
contains no row at all for that member — the aggregate $match silently
drops members without matching attendance entries, unlike the subgroup
report. -/
theorem getGroupAttendance_drops_members_cex :
    dbX9.members = [mX9] ∧ mX9.group = 1 ∧
    dbX9.persons.find? (fun q => q.id == mX9.person) =
      some { id := 5, firstName := "A", lastName := "B" } ∧
    getGroupAttendance dbX9 1 0 10 = [] :=
  ⟨rfl, rfl, rfl, rfl⟩

/-- Claim C9 (amended): the subgroup report returns one row per subgroup
member, in store order, whose attendance is exactly the inclusive-range
subsequence of that member's entries in insertion order, joined with the
person's names; the group report does the same but only for members that
have some entry dated at or after startDate and some entry dated at or
before endDate — members without such entries (or with a missing person
record) are omitted. -/
theorem attendanceReport_spec (db : DB) (a : Actor) (sgid : Nat) (s e : Int)
    (rows : List AttendanceRow)
    (h : subgroupAttendanceReport db a sgid s e = .ok rows) :
    rows.length = (subgroupMembers db a sgid).length ∧
    (∀ i (h1 : i < (subgroupMembers db a sgid).length) (h2 : i < rows.length),
      rows[i].memberId = (subgroupMembers db a sgid)[i].id ∧
      rows[i].attendance = (subgroupMembers db a sgid)[i].attendance.filter (inRange s e) ∧
      rows[i].attendance.Sublist (subgroupMembers db a sgid)[i].attendance ∧
      (∃ p, db.persons.find?
          (fun q => q.id == (subgroupMembers db a sgid)[i].person) = some p ∧
        rows[i].firstName = p.firstName ∧ rows[i].lastName = p.lastName)) ∧
    (∀ gid row, row ∈ getGroupAttendance db gid s e →
      ∃ m, m ∈ db.members ∧ m.group = gid ∧
        (∃ x ∈ m.attendance, s ≤ x.date) ∧ (∃ x ∈ m.attendance, x.date ≤ e) ∧
        row.memberId = m.id ∧ row.attendance = m.attendance.filter (inRange s e) ∧
        row.attendance.Sublist m.attendance) ∧
    (∀ gid m p, m ∈ db.members → m.group = gid →
      (∃ x ∈ m.attendance, s ≤ x.date) → (∃ x ∈ m.attendance, x.date ≤ e) →
      db.persons.find? (fun q => q.id == m.person) = some p →
      ({ memberId := m.id, firstName := p.firstName, lastName := p.lastName,
         attendance := m.attendance.filter (inRange s e) } : AttendanceRow) ∈
        getGroupAttendance db gid s e) := by
  have hok : collectRows (memberRow db s e) (subgroupMembers db a sgid) = some rows := by
    unfold subgroupAttendanceReport at h
    split at h
    · exact Except.noConfusion h
    · split at h
      · exact Except.noConfusion h
      · rename_i rows0 hcoll
        have : rows0 = rows := by injection h
        rw [← this]
        exact hcoll
  obtain ⟨hlen, hpt⟩ := collectRows_spec (memberRow db s e) (subgroupMembers db a sgid)
    rows hok
  refine ⟨hlen, ?_, ?_, ?_⟩
  · intro i h1 h2
    have hrow := hpt i h1 h2
    unfold memberRow at hrow
    obtain ⟨p, hp, hbuild⟩ := Option.map_eq_some'.mp hrow
    refine ⟨by rw [← hbuild], by rw [← hbuild]; rfl, ?_, ⟨p, hp, by rw [← hbuild], by rw [← hbuild]⟩⟩
    rw [show rows[i].attendance = (subgroupMembers db a sgid)[i].attendance.filter
      (inRange s e) from by rw [← hbuild]; rfl]
    exact List.filter_sublist _
  · intro gid row hrow
    unfold getGroupAttendance at hrow
    obtain ⟨m, hmf, hmr⟩ := List.mem_filterMap.mp hrow
    obtain ⟨hmm, hmc⟩ := List.mem_filter.mp hmf
    have hc2 : m.group = gid ∧
        (∃ x ∈ m.attendance, s ≤ x.date) ∧ (∃ x ∈ m.attendance, x.date ≤ e) := by
      have h0 : (m.group = gid ∧ ∃ x ∈ m.attendance, s ≤ x.date) ∧
          ∃ x ∈ m.attendance, x.date ≤ e := by
        simpa [List.any_eq_true] using hmc
      exact ⟨h0.1.1, h0.1.2, h0.2⟩
    unfold memberRow at hmr
    obtain ⟨p, hp, hbuild⟩ := Option.map_eq_some'.mp hmr
    refine ⟨m, hmm, hc2.1, hc2.2.1, hc2.2.2, by rw [← hbuild], by rw [← hbuild]; rfl, ?_⟩
    rw [show row.attendance = m.attendance.filter (inRange s e) from by rw [← hbuild]; rfl]
    exact List.filter_sublist _
  · intro gid m p hm hg ha1 ha2 hp
    unfold getGroupAttendance
    refine List.mem_filterMap.mpr ⟨m, List.mem_filter.mpr ⟨hm, ?_⟩, ?_⟩
    · simp [hg, List.any_eq_true]
      exact ⟨ha1, ha2⟩
    · unfold memberRow
      rw [hp]
      rfl

/-- Witness for amended C9 at dbW9: the subgroup report over 0..10 yields
rowsW9 and satisfies the row characterization. -/
theorem attendanceReport_spec_witness :
    rowsW9.length = (subgroupMembers dbW9 adminActor 2).length ∧
    (∀ i (h1 : i < (subgroupMembers dbW9 adminActor 2).length) (h2 : i < rowsW9.length),
      rowsW9[i].memberId = (subgroupMembers dbW9 adminActor 2)[i].id ∧
      rowsW9[i].attendance =
        (subgroupMembers dbW9 adminActor 2)[i].attendance.filter (inRange 0 10) ∧
      rowsW9[i].attendance.Sublist (subgroupMembers dbW9 adminActor 2)[i].attendance ∧
      (∃ p, dbW9.persons.find?
          (fun q => q.id == (subgroupMembers dbW9 adminActor 2)[i].person) = some p ∧
        rowsW9[i].firstName = p.firstName ∧ rowsW9[i].lastName = p.lastName)) ∧
    (∀ gid row, row ∈ getGroupAttendance dbW9 gid 0 10 →
      ∃ m, m ∈ dbW9.members ∧ m.group = gid ∧
        (∃ x ∈ m.attendance, (0 : Int) ≤ x.date) ∧ (∃ x ∈ m.attendance, x.date ≤ 10) ∧
        row.memberId = m.id ∧ row.attendance = m.attendance.filter (inRange 0 10) ∧
        row.attendance.Sublist m.attendance) ∧
    (∀ gid m p, m ∈ dbW9.members → m.group = gid →
      (∃ x ∈ m.attendance, (0 : Int) ≤ x.date) → (∃ x ∈ m.attendance, x.date ≤ 10) →
      dbW9.persons.find? (fun q => q.id == m.person) = some p →
      ({ memberId := m.id, firstName := p.firstName, lastName := p.lastName,
         attendance := m.attendance.filter (inRange 0 10) } : AttendanceRow) ∈
        getGroupAttendance dbW9 gid 0 10) :=
  attendanceReport_spec dbW9 adminActor 2 0 10 rowsW9 (by rfl)

/-- Users of a list whose person projection is duplicate-free have
pairwise distinct persons across a middle split. -/
theorem person_ne_of_split (u : ChurchUser) (L1 L2 : List ChurchUser)
    (hnd : (((L1 ++ u :: L2)).map (fun x => x.person)).Nodup) :
    ∀ x, (x ∈ L1 ∨ x ∈ L2) → x.person ≠ u.person := by
  intro x hx hxp
  have h0 : (L1.map (fun x => x.person) ++ u.person ::
      L2.map (fun x => x.person)).Nodup := by
    simpa using hnd
  have h1 := (List.nodup_cons.mp (List.nodup_middle.mp h0)).1
  apply h1
  rcases hx with hx1 | hx2
  · exact List.mem_append.mpr (Or.inl (by rw [← hxp]; exact List.mem_map_of_mem _ hx1))
  · exact List.mem_append.mpr (Or.inr (by rw [← hxp]; exact List.mem_map_of_mem _ hx2))

/-- Groups of a list whose id projection is duplicate-free have pairwise
distinct ids across a middle split. -/
theorem gid_ne_of_split (g : Group) (M1 M2 : List Group)
    (hnd : (((M1 ++ g :: M2)).map (fun x => x.id)).Nodup) :
    ∀ y, (y ∈ M1 ∨ y ∈ M2) → y.id ≠ g.id := by
  intro y hy hyp
  have h0 : (M1.map (fun x => x.id) ++ g.id :: M2.map (fun x => x.id)).Nodup := by
    simpa using hnd
  have h1 := (List.nodup_cons.mp (List.nodup_middle.mp h0)).1
  apply h1
  rcases hy with hy1 | hy2
  · exact List.mem_append.mpr (Or.inl (by rw [← hyp]; exact List.mem_map_of_mem _ hy1))
  · exact List.mem_append.mpr (Or.inr (by rw [← hyp]; exact List.mem_map_of_mem _ hy2))

/-- deleteGroup preserves the leadership mirror (group ids unique). -/
theorem mirror_deleteGroup (db : DB)
    (hGid : (db.groups.map (fun g => g.id)).Nodup)
    (hinv : mirrorInv db) (a : Actor) (gid : Nat) (db2 : DB)
    (h : deleteGroup db a gid = .ok db2) : mirrorInv db2 := by
  unfold deleteGroup at h
  cases hf : db.groups.find? (fun g => g.id == gid && g.church == a.church) with
  | none => rw [hf] at h; exact Except.noConfusion h
  | some g0 =>
    rw [hf] at h
    injection h with h3
    subst h3
    intro u1 hu1 g1 hg1
    have hu1m : u1 ∈ db.users.map (fun u =>
        { u with groupLeaderships := u.groupLeaderships.filter (fun x => !(x == gid)) }) := by
      simpa [deleteGroupDoc, pullGroupLeaderships, deleteGroupMembers,
        deleteGroupSubgroups] using hu1
    have hg1e : g1 ∈ db.groups.eraseP (fun g => g.id == gid) := by
      simpa [deleteGroupDoc, pullGroupLeaderships, deleteGroupMembers,
        deleteGroupSubgroups] using hg1
    obtain ⟨u0, hu0, rfl⟩ := List.mem_map.mp hu1m
    have hg1m : g1 ∈ db.groups := (List.eraseP_sublist db.groups).subset hg1e
    have hg0m : g0 ∈ db.groups := List.mem_of_find?_eq_some hf
    have hg0id : g0.id = gid := by
      have h4 := List.find?_some hf
      have h5 : g0.id = gid ∧ g0.church = a.church := by simpa using h4
      exact h5.1
    have hne : g1.id ≠ gid :=
      eraseP_beq_not_mem (fun g => g.id) hGid hg0m hg0id g1 hg1e
    have base := hinv u0 hu0 g1 hg1m
    constructor
    · intro hmem
      exact base.mp (List.mem_filter.mp hmem).1
    · intro hmem
      refine List.mem_filter.mpr ⟨base.mpr hmem, ?_⟩
      simp [hne]

/-- deleteSubgroup preserves the leadership mirror (it never touches
groupLeaderships or Group.leaders). -/
theorem mirror_deleteSubgroup (db : DB) (hinv : mirrorInv db) (a : Actor)
    (sgid : Nat) (db2 : DB) (h : deleteSubgroup db a sgid = .ok db2) :
    mirrorInv db2 := by
  unfold deleteSubgroup at h
  split at h
  · exact Except.noConfusion h
  · split at h
    · exact Except.noConfusion h
    · injection h with h3
      subst h3
      intro u1 hu1 g1 hg1
      have hu1m : u1 ∈ db.users.map (fun u =>
          { u with subgroupLeaderships :=
              u.subgroupLeaderships.filter (fun x => !(x == sgid)) }) := hu1
      obtain ⟨u0, hu0, rfl⟩ := List.mem_map.mp hu1m
      exact hinv u0 hu0 g1 hg1

/-- addMember preserves the leadership mirror (members only). -/
theorem mirror_addMember (db : DB) (hinv : mirrorInv db) (a : Actor)
    (gid pid : Nat) (sg : Option Nat) (r : MemberRole) (nid : Nat)
    (out : DB × GroupMember) (h : addMember db a gid pid sg r nid = .ok out) :
    mirrorInv out.1 := by
  unfold addMember at h
  split at h
  · exact Except.noConfusion h
  · split at h
    · exact Except.noConfusion h
    · injection h with h3
      rw [← h3]
      exact hinv

/-- updateGroupMember preserves the leadership mirror (members only). -/
theorem mirror_updateGroupMember (db : DB) (hinv : mirrorInv db) (a : Actor)
    (mid : Nat) (upd : MemberUpdate) (out : DB × GroupMember)
    (h : updateGroupMember db a mid upd = .ok out) : mirrorInv out.1 := by
  unfold updateGroupMember at h
  split at h
  · exact Except.noConfusion h
  · split at h
    · exact Except.noConfusion h
    · split at h
      · exact Except.noConfusion h
      · injection h with h3
        rw [← h3]
        exact hinv

/-- The subgroup-route member assignment preserves the leadership mirror
(members only). -/
theorem mirror_assignPersonToSubgroup (db : DB) (hinv : mirrorInv db)
    (a : Actor) (sgid pid : Nat) (out : DB × GroupMember)
    (h : assignPersonToSubgroup db a sgid pid = .ok out) : mirrorInv out.1 := by
  unfold assignPersonToSubgroup at h
  split at h
  · exact Except.noConfusion h
  · split at h
    · exact Except.noConfusion h
    · split at h
      · exact Except.noConfusion h
      · injection h with h3
        rw [← h3]
        exact hinv

/-- assignGroupLeadership preserves the leadership mirror (persons and
group ids unique). -/
theorem mirror_assignLeadership (db : DB)
    (hUniq : (db.users.map (fun u => u.person)).Nodup)
    (hGid : (db.groups.map (fun g => g.id)).Nodup)
    (hinv : mirrorInv db) (uid gid : Nat) (db2 : DB)
    (h : assignGroupLeadership db uid gid = .ok db2) : mirrorInv db2 := by
  unfold assignGroupLeadership at h
  cases hfu : db.users.find? (fun x => x.id == uid) with
  | none => rw [hfu] at h; exact Except.noConfusion h
  | some u =>
    rw [hfu] at h
    cases hfg : db.groups.find? (fun g => g.id == gid) with
    | none => rw [hfg] at h; exact Except.noConfusion h
    | some g =>
      rw [hfg] at h
      injection h with h3
      subst h3
      set g2 := if g.leaders.contains u.person then g
                else { g with leaders := g.leaders ++ [u.person] } with hg2def
      set u2 := if u.groupLeaderships.contains gid then u
                else { u with groupLeaderships := u.groupLeaderships ++ [gid] } with hu2def
      have hu_mem : u ∈ db.users := List.mem_of_find?_eq_some hfu
      have hg_mem : g ∈ db.groups := List.mem_of_find?_eq_some hfg
      have hgid : g.id = gid := by
        have h4 := List.find?_some hfg
        simpa using h4
      obtain ⟨L1, L2, hL1, _, hLeq, hLset⟩ :=
        setFirst_split (fun x => x.id == uid) u2 hfu
      obtain ⟨M1, M2, hM1, _, hMeq, hMset⟩ :=
        setFirst_split (fun x => x.id == gid) g2 hfg
      have hu2p : u2.person = u.person := by
        by_cases hc : u.groupLeaderships.contains gid = true
        · rw [hu2def, if_pos hc]
        · rw [hu2def, if_neg hc]
      have hg2id : g2.id = g.id := by
        by_cases hc : g.leaders.contains u.person = true
        · rw [hg2def, if_pos hc]
        · rw [hg2def, if_neg hc]
      have hu2gid : gid ∈ u2.groupLeaderships := by
        by_cases hc : u.groupLeaderships.contains gid = true
        · rw [hu2def, if_pos hc]; exact List.elem_iff.mp hc
        · rw [hu2def, if_neg hc]; simp
      have hg2person : u.person ∈ g2.leaders := by
        by_cases hc : g.leaders.contains u.person = true
        · rw [hg2def, if_pos hc]; exact List.elem_iff.mp hc
        · rw [hg2def, if_neg hc]; simp
      have hu2mem_iff : ∀ z, z ≠ gid →
          (z ∈ u2.groupLeaderships ↔ z ∈ u.groupLeaderships) := by
        intro z hz
        by_cases hc : u.groupLeaderships.contains gid = true
        · rw [hu2def, if_pos hc]
        · rw [hu2def, if_neg hc]
          constructor
          · intro hm
            rcases List.mem_append.mp hm with hm1 | hm2
            · exact hm1
            · exact absurd (List.mem_singleton.mp hm2) hz
          · intro hm
            exact List.mem_append.mpr (Or.inl hm)
      have hg2mem_iff : ∀ q, q ≠ u.person →
          (q ∈ g2.leaders ↔ q ∈ g.leaders) := by
        intro q hq
        by_cases hc : g.leaders.contains u.person = true
        · rw [hg2def, if_pos hc]
        · rw [hg2def, if_neg hc]
          constructor
          · intro hm
            rcases List.mem_append.mp hm with hm1 | hm2
            · exact hm1
            · exact absurd (List.mem_singleton.mp hm2) hq
          · intro hm
            exact List.mem_append.mpr (Or.inl hm)
      have hUperson : ∀ x, (x ∈ L1 ∨ x ∈ L2) → x.person ≠ u.person :=
        person_ne_of_split u L1 L2 (by rw [← hLeq]; exact hUniq)
      have hGidne : ∀ y, (y ∈ M1 ∨ y ∈ M2) → y.id ≠ g.id :=
        gid_ne_of_split g M1 M2 (by rw [← hMeq]; exact hGid)
      intro u1 hu1 g1 hg1
      have hu1s : u1 ∈ L1 ++ u2 :: L2 := by
        rw [← hLset]
        exact hu1
      have hg1s : g1 ∈ M1 ++ g2 :: M2 := by
        rw [← hMset]
        exact hg1
      have hu1c : u1 = u2 ∨ (u1 ∈ db.users ∧ u1.person ≠ u.person) := by
        rcases List.mem_append.mp hu1s with h1 | h2
        · refine Or.inr ⟨?_, hUperson u1 (Or.inl h1)⟩
          rw [hLeq]
          exact List.mem_append.mpr (Or.inl h1)
        · rcases List.mem_cons.mp h2 with h3 | h4
          · exact Or.inl h3
          · refine Or.inr ⟨?_, hUperson u1 (Or.inr h4)⟩
            rw [hLeq]
            exact List.mem_append.mpr (Or.inr (List.mem_cons.mpr (Or.inr h4)))
      have hg1c : g1 = g2 ∨ (g1 ∈ db.groups ∧ g1.id ≠ g.id) := by
        rcases List.mem_append.mp hg1s with h1 | h2
        · refine Or.inr ⟨?_, hGidne g1 (Or.inl h1)⟩
          rw [hMeq]
          exact List.mem_append.mpr (Or.inl h1)
        · rcases List.mem_cons.mp h2 with h3 | h4
          · exact Or.inl h3
          · refine Or.inr ⟨?_, hGidne g1 (Or.inr h4)⟩
            rw [hMeq]
            exact List.mem_append.mpr (Or.inr (List.mem_cons.mpr (Or.inr h4)))
      rcases hu1c with rfl | hu1o
      · rcases hg1c with rfl | hg1o
        · constructor
          · intro _
            rw [hu2p]
            exact hg2person
          · intro _
            rw [hg2id, hgid]
            exact hu2gid
        · have hne : g1.id ≠ gid := by rw [← hgid]; exact hg1o.2
          have base := hinv u hu_mem g1 hg1o.1
          constructor
          · intro hmem
            rw [hu2p]
            exact base.mp ((hu2mem_iff g1.id hne).mp hmem)
          · intro hmem
            rw [hu2p] at hmem
            exact (hu2mem_iff g1.id hne).mpr (base.mpr hmem)
      · rcases hg1c with rfl | hg1o
        · have base := hinv u1 hu1o.1 g hg_mem
          constructor
          · intro hmem
            rw [hg2id] at hmem
            exact (hg2mem_iff u1.person hu1o.2).mpr (base.mp hmem)
          · intro hmem
            rw [hg2id]
            exact base.mpr ((hg2mem_iff u1.person hu1o.2).mp hmem)
        · exact hinv u1 hu1o.1 g1 hg1o.1

/-- removeGroupLeadership preserves the leadership mirror (persons and
group ids unique). -/
theorem mirror_removeLeadership (db : DB)
    (hUniq : (db.users.map (fun u => u.person)).Nodup)
    (hGid : (db.groups.map (fun g => g.id)).Nodup)
    (hinv : mirrorInv db) (uid gid : Nat) (db2 : DB)
    (h : removeGroupLeadership db uid gid = .ok db2) : mirrorInv db2 := by
  unfold removeGroupLeadership at h
  cases hfu : db.users.find? (fun x => x.id == uid) with
  | none => rw [hfu] at h; exact Except.noConfusion h
  | some u =>
    rw [hfu] at h
    cases hfg : db.groups.find? (fun g => g.id == gid) with
    | none => rw [hfg] at h; exact Except.noConfusion h
    | some g =>
      rw [hfg] at h
      injection h with h3
      subst h3
      set u2 := { u with groupLeaderships := u.groupLeaderships.filter (fun x => !(x == gid)) } with hu2def
      set g2 := { g with leaders := g.leaders.filter (fun q => !(q == u.person)) } with hg2def
      have hu_mem : u ∈ db.users := List.mem_of_find?_eq_some hfu
      have hg_mem : g ∈ db.groups := List.mem_of_find?_eq_some hfg
      have hgid : g.id = gid := by
        have h4 := List.find?_some hfg
        simpa using h4
      obtain ⟨L1, L2, hL1, _, hLeq, hLset⟩ :=
        setFirst_split (fun x => x.id == uid) u2 hfu
      obtain ⟨M1, M2, hM1, _, hMeq, hMset⟩ :=
        setFirst_split (fun x => x.id == gid) g2 hfg
      have hUperson : ∀ x, (x ∈ L1 ∨ x ∈ L2) → x.person ≠ u.person :=
        person_ne_of_split u L1 L2 (by rw [← hLeq]; exact hUniq)
      have hGidne : ∀ y, (y ∈ M1 ∨ y ∈ M2) → y.id ≠ g.id :=
        gid_ne_of_split g M1 M2 (by rw [← hMeq]; exact hGid)
      intro u1 hu1 g1 hg1
      have hu1s : u1 ∈ L1 ++ u2 :: L2 := by
        rw [← hLset]
        exact hu1
      have hg1s : g1 ∈ M1 ++ g2 :: M2 := by
        rw [← hMset]
        exact hg1
      have hu1c : u1 = u2 ∨ (u1 ∈ db.users ∧ u1.person ≠ u.person) := by
        rcases List.mem_append.mp hu1s with h1 | h2
        · refine Or.inr ⟨?_, hUperson u1 (Or.inl h1)⟩
          rw [hLeq]
          exact List.mem_append.mpr (Or.inl h1)
        · rcases List.mem_cons.mp h2 with h3 | h4
          · exact Or.inl h3
          · refine Or.inr ⟨?_, hUperson u1 (Or.inr h4)⟩
            rw [hLeq]
            exact List.mem_append.mpr (Or.inr (List.mem_cons.mpr (Or.inr h4)))
      have hg1c : g1 = g2 ∨ (g1 ∈ db.groups ∧ g1.id ≠ g.id) := by
        rcases List.mem_append.mp hg1s with h1 | h2
        · refine Or.inr ⟨?_, hGidne g1 (Or.inl h1)⟩
          rw [hMeq]
          exact List.mem_append.mpr (Or.inl h1)
        · rcases List.mem_cons.mp h2 with h3 | h4
          · exact Or.inl h3
          · refine Or.inr ⟨?_, hGidne g1 (Or.inr h4)⟩
            rw [hMeq]
            exact List.mem_append.mpr (Or.inr (List.mem_cons.mpr (Or.inr h4)))
      rcases hu1c with rfl | hu1o
      · rcases hg1c with rfl | hg1o
        · constructor
          · intro hmem
            have h4 := (List.mem_filter.mp hmem).2
            simp at h4
            exact absurd hgid h4
          · intro hmem
            have h4 := (List.mem_filter.mp hmem).2
            simp at h4
        · have hne : g1.id ≠ gid := by rw [← hgid]; exact hg1o.2
          have base := hinv u hu_mem g1 hg1o.1
          constructor
          · intro hmem
            exact base.mp (List.mem_filter.mp hmem).1
          · intro hmem
            refine List.mem_filter.mpr ⟨base.mpr hmem, ?_⟩
            simp [hne]
      · rcases hg1c with rfl | hg1o
        · have base := hinv u1 hu1o.1 g hg_mem
          constructor
          · intro hmem
            have h5 : g.id ∈ u1.groupLeaderships := hmem
            refine List.mem_filter.mpr ⟨base.mp h5, ?_⟩
            simp [hu1o.2]
          · intro hmem
            exact base.mpr (List.mem_filter.mp hmem).1
        · exact hinv u1 hu1o.1 g1 hg1o.1

/-- Counterexample to C10 as stated: from a mirror-consistent state, the
group update route (PUT /api/groups/:id) with a new leaders list changes
Group.leaders without touching any ChurchUser.groupLeaderships, breaking
the mirror. -/
theorem updateGroup_breaks_mirror_cex :
    mirrorInv dbX10 ∧
    updateGroup dbX10 adminActor 1
        { name := none, leaders := some [5], isActive := none } = .ok dbX10out ∧
    ¬ mirrorInv dbX10out :=
  ⟨by decide, rfl, by decide⟩

/-- Claim C10 (amended): from a mirror-consistent state with unique user
persons and group ids, every modeled operation except the group update
preserves the leadership mirror — deleteGroup, deleteSubgroup, addMember,
updateGroupMember, the subgroup-route member assignment, and the two
leadership-sync operations; the group update (PUT /api/groups/:id with a
leaders list) is the one operation that can break it. -/
theorem mirror_preserved_except_group_update (db : DB)
    (hUniq : (db.users.map (fun u => u.person)).Nodup)
    (hGid : (db.groups.map (fun g => g.id)).Nodup)
    (hinv : mirrorInv db) :
    (∀ a gid db2, deleteGroup db a gid = .ok db2 → mirrorInv db2) ∧
    (∀ a sgid db2, deleteSubgroup db a sgid = .ok db2 → mirrorInv db2) ∧
    (∀ a gid pid sg r nid out, addMember db a gid pid sg r nid = .ok out →
      mirrorInv out.1) ∧
    (∀ a mid upd out, updateGroupMember db a mid upd = .ok out → mirrorInv out.1) ∧
    (∀ a sgid pid out, assignPersonToSubgroup db a sgid pid = .ok out →
      mirrorInv out.1) ∧
    (∀ uid gid db2, assignGroupLeadership db uid gid = .ok db2 → mirrorInv db2) ∧
    (∀ uid gid db2, removeGroupLeadership db uid gid = .ok db2 → mirrorInv db2) :=
  ⟨fun a gid db2 h => mirror_deleteGroup db hGid hinv a gid db2 h,
   fun a sgid db2 h => mirror_deleteSubgroup db hinv a sgid db2 h,
   fun a gid pid sg r nid out h => mirror_addMember db hinv a gid pid sg r nid out h,
   fun a mid upd out h => mirror_updateGroupMember db hinv a mid upd out h,
   fun a sgid pid out h => mirror_assignPersonToSubgroup db hinv a sgid pid out h,
   fun uid gid db2 h => mirror_assignLeadership db hUniq hGid hinv uid gid db2 h,
   fun uid gid db2 h => mirror_removeLeadership db hUniq hGid hinv uid gid db2 h⟩

/-- Witness for amended C10 at the consistent state dbW10. -/
theorem mirror_preserved_witness :
    (∀ a gid db2, deleteGroup dbW10 a gid = .ok db2 → mirrorInv db2) ∧
    (∀ a sgid db2, deleteSubgroup dbW10 a sgid = .ok db2 → mirrorInv db2) ∧
    (∀ a gid pid sg r nid out, addMember dbW10 a gid pid sg r nid = .ok out →
      mirrorInv out.1) ∧
    (∀ a mid upd out, updateGroupMember dbW10 a mid upd = .ok out → mirrorInv out.1) ∧
    (∀ a sgid pid out, assignPersonToSubgroup dbW10 a sgid pid = .ok out →
      mirrorInv out.1) ∧
    (∀ uid gid db2, assignGroupLeadership dbW10 uid gid = .ok db2 → mirrorInv db2) ∧
    (∀ uid gid db2, removeGroupLeadership dbW10 uid gid = .ok db2 → mirrorInv db2) :=
  mirror_preserved_except_group_update dbW10 (by decide) (by decide) (by decide)

end Church
